import Mathlib

/-!
# SkyStrike — formal model of the simulation core

A shallow embedding of the simulation core of `skystrike.py` (a 3D aerial
combat game): vector math, entity damage handling, enemy AI state selection,
missile guidance, mission bookkeeping, and combat resolution.  Python floats
are modelled as real numbers, Python ints as `ℕ`/`ℤ`, Python lists as `List`,
and the heterogeneous mission-objective dictionaries as a record with
`Option` fields encoding key presence.
-/

noncomputable section

namespace Sky

open Real

/-! ## Vector3 (source: class `Vector3`) -/

/-- 3D vector math operations (source `Vector3.__init__`: an (x, y, z)
triple of floats). -/
structure Vector3 where
  x : ℝ
  y : ℝ
  z : ℝ
deriving DecidableEq

/-- Source `Vector3.__add__`. -/
instance : Add Vector3 :=
  ⟨fun a b => ⟨a.x + b.x, a.y + b.y, a.z + b.z⟩⟩

/-- Source `Vector3.__sub__`. -/
instance : Sub Vector3 :=
  ⟨fun a b => ⟨a.x - b.x, a.y - b.y, a.z - b.z⟩⟩

/-- Source `Vector3.__mul__` (multiplication by a scalar on the right). -/
instance : HMul Vector3 ℝ Vector3 :=
  ⟨fun v s => ⟨v.x * s, v.y * s, v.z * s⟩⟩

theorem Vector3.add_def (a b : Vector3) :
    a + b = ⟨a.x + b.x, a.y + b.y, a.z + b.z⟩ := rfl

theorem Vector3.sub_def (a b : Vector3) :
    a - b = ⟨a.x - b.x, a.y - b.y, a.z - b.z⟩ := rfl

theorem Vector3.mul_def (v : Vector3) (s : ℝ) :
    v * s = ⟨v.x * s, v.y * s, v.z * s⟩ := rfl

/-- Source `Vector3.length`: `sqrt(x**2 + y**2 + z**2)`. -/
def Vector3.length (v : Vector3) : ℝ :=
  Real.sqrt (v.x ^ 2 + v.y ^ 2 + v.z ^ 2)

/-- Source `Vector3.normalize`: divide by the length when it is positive,
otherwise return the zero vector. -/
def Vector3.normalize (v : Vector3) : Vector3 :=
  if 0 < v.length then ⟨v.x / v.length, v.y / v.length, v.z / v.length⟩
  else ⟨0, 0, 0⟩

/-- Source `Vector3.distance_to`: `(self - other).length()`. -/
def Vector3.distance_to (a b : Vector3) : ℝ :=
  (a - b).length

/-- Dot product, used to state angle facts about the model (not a source
method; the source reaches angles only through `length`). -/
def Vector3.dot (a b : Vector3) : ℝ :=
  a.x * b.x + a.y * b.y + a.z * b.z

/-- The (unoriented) angle between two vectors, used to state the spec's
"15% of the angular gap" claim. -/
def angleBetween (a b : Vector3) : ℝ :=
  Real.arccos (a.dot b / (a.length * b.length))

theorem Vector3.length_nonneg (v : Vector3) : 0 ≤ v.length :=
  Real.sqrt_nonneg _

theorem Vector3.sq_length (v : Vector3) :
    v.length ^ 2 = v.x ^ 2 + v.y ^ 2 + v.z ^ 2 := by
  have h : 0 ≤ v.x ^ 2 + v.y ^ 2 + v.z ^ 2 := by positivity
  simpa [Vector3.length] using Real.sq_sqrt h

theorem Vector3.length_eq_zero_iff (v : Vector3) :
    v.length = 0 ↔ v = ⟨0, 0, 0⟩ := by
  constructor
  · intro h
    have h2 : v.x ^ 2 + v.y ^ 2 + v.z ^ 2 = 0 := by
      have := Vector3.sq_length v
      rw [h] at this
      simpa using this.symm
    have hx : v.x = 0 := by nlinarith [sq_nonneg v.x, sq_nonneg v.y, sq_nonneg v.z]
    have hy : v.y = 0 := by nlinarith [sq_nonneg v.x, sq_nonneg v.y, sq_nonneg v.z]
    have hz : v.z = 0 := by nlinarith [sq_nonneg v.x, sq_nonneg v.y, sq_nonneg v.z]
    cases v
    simp_all
  · rintro rfl
    simp [Vector3.length]

theorem Vector3.length_pos_of_ne_zero {v : Vector3} (h : v ≠ ⟨0, 0, 0⟩) :
    0 < v.length := by
  rcases lt_or_eq_of_le (Vector3.length_nonneg v) with hlt | heq
  · exact hlt
  · exact absurd ((Vector3.length_eq_zero_iff v).mp heq.symm) h

theorem Vector3.length_mul (v : Vector3) (s : ℝ) :
    (v * s).length = |s| * v.length := by
  have : (v * s).x ^ 2 + (v * s).y ^ 2 + (v * s).z ^ 2
      = s ^ 2 * (v.x ^ 2 + v.y ^ 2 + v.z ^ 2) := by
    simp [Vector3.mul_def]
    ring
  rw [Vector3.length, this, Real.sqrt_mul (sq_nonneg s), Real.sqrt_sq_eq_abs]
  rfl

theorem Vector3.normalize_length {v : Vector3} (h : v.length ≠ 0) :
    v.normalize.length = 1 := by
  have hpos : 0 < v.length := lt_of_le_of_ne (Vector3.length_nonneg v) (Ne.symm h)
  have hv : v.normalize = v * (1 / v.length) := by
    simp [Vector3.normalize, hpos, Vector3.mul_def]
    refine ⟨?_, ?_, ?_⟩ <;> ring
  rw [hv, Vector3.length_mul]
  rw [abs_of_pos (by positivity)]
  field_simp

theorem Vector3.normalize_zero_or_unit (v : Vector3) :
    v.normalize.length = 0 ∨ v.normalize.length = 1 := by
  by_cases h : v.length = 0
  · left
    have : v.normalize = ⟨0, 0, 0⟩ := by
      simp [Vector3.normalize, h]
    rw [this]
    simp [Vector3.length]
  · right
    exact Vector3.normalize_length h

/-! ## Claim C9 — normalize on zero-length and unit vectors -/

/-- C9: `Vector3.normalize` returns the zero vector on any zero-length input
(no division by zero is performed), and is the identity on every vector of
length exactly 1. -/
theorem normalize_zero_and_unit_spec (v : Vector3) :
    (v.length = 0 → v.normalize = ⟨0, 0, 0⟩) ∧
    (v.length = 1 → v.normalize = v) := by
  constructor
  · intro h
    simp [Vector3.normalize, h]
  · intro h
    cases v
    simp [Vector3.normalize, h]

/-- Witness for C9: the zero vector and the unit vector (1,0,0). -/
theorem normalize_zero_and_unit_spec_witness :
    Vector3.normalize ⟨0, 0, 0⟩ = ⟨0, 0, 0⟩ ∧
    Vector3.normalize ⟨1, 0, 0⟩ = ⟨1, 0, 0⟩ := by
  have h0 : (⟨0, 0, 0⟩ : Vector3).length = 0 := by
    simp [Vector3.length]
  have h1 : (⟨1, 0, 0⟩ : Vector3).length = 1 := by
    simp [Vector3.length]
  exact ⟨(normalize_zero_and_unit_spec _).1 h0, (normalize_zero_and_unit_spec _).2 h1⟩

/-! ## Enumerations (source: classes `GameState`, `MissionType`, `EnemyState`) -/

def GameState.MENU : ℕ := 0
def GameState.MISSION_SELECT : ℕ := 1
def GameState.MISSION_BRIEFING : ℕ := 2
def GameState.PLAYING : ℕ := 3
def GameState.PAUSED : ℕ := 4
def GameState.MISSION_COMPLETE : ℕ := 5
def GameState.MISSION_FAILED : ℕ := 6
def GameState.GAME_OVER : ℕ := 7

def MissionType.ELIMINATION : ℕ := 0
def MissionType.SURVIVAL : ℕ := 1
def MissionType.ESCORT : ℕ := 2
def MissionType.DEFENSE : ℕ := 3
def MissionType.BOSS : ℕ := 4

def EnemyState.PATROL : ℕ := 0
def EnemyState.CHASE : ℕ := 1
def EnemyState.ATTACK : ℕ := 2
def EnemyState.EVADE : ℕ := 3
def EnemyState.DESTROYED : ℕ := 4

/-! ## World constants (source: module-level constants) -/

def WORLD_SIZE : ℝ := 500
def WORLD_HEIGHT_MAX : ℝ := 400

/-! ## Enemy (source: class `Enemy`) -/

/-- Enemy aircraft state.  `eid` is a stable identifier standing for the
Python object identity `id(enemy)` used by the breach bookkeeping (see spec
§9).  The fields the claims never read (velocity, rotation, color, patrol
target, fire_cooldown_max) are omitted; they influence only rendering and
the randomized movement targets. -/
structure Enemy where
  eid : ℕ
  type : String
  position : Vector3
  health : ℝ
  max_health : ℝ
  speed : ℝ
  size : ℝ
  damage : ℝ
  fire_cooldown : ℝ
  state_timer : ℝ
  state : ℕ
  alive : Bool

/-- Source `Enemy.take_damage`: subtract the damage; when the resulting
health is ≤ 0 clear `alive` and report the kill.  Note: the health is NOT
clamped at zero here (unlike `FriendlyAircraft.take_damage`). -/
def Enemy.take_damage (e : Enemy) (damage : ℝ) : Enemy × Bool :=
  let e' := { e with health := e.health - damage }
  if e'.health ≤ 0 then ({ e' with alive := false }, true)
  else (e', false)

/-- The state-transition portion of `Enemy.update` (source lines 467–484):
cooldown/state-timer bookkeeping followed by the AI state selection from
health and distance to the player.  The remainder of `Enemy.update`
(movement toward the per-state target, world clamping, firing) draws random
patrol targets and is not consulted by any claim. -/
def Enemy.updateState (e : Enemy) (dt : ℝ) (player_pos : Vector3) : Enemy :=
  if e.alive = false then e
  else
    let e₁ := { e with fire_cooldown := max 0 (e.fire_cooldown - dt),
                       state_timer := e.state_timer + dt }
    let dist_to_player := e₁.position.distance_to player_pos
    if e₁.health < e₁.max_health * 0.3 then { e₁ with state := EnemyState.EVADE }
    else if dist_to_player < 100 then { e₁ with state := EnemyState.ATTACK }
    else if dist_to_player < 200 then { e₁ with state := EnemyState.CHASE }
    else { e₁ with state := EnemyState.PATROL }

/-! ## FriendlyAircraft (source: class `FriendlyAircraft`) -/

/-- Escort-mission friendly aircraft. -/
structure FriendlyAircraft where
  position : Vector3
  speed : ℝ
  health : ℝ
  max_health : ℝ
  alive : Bool
  reached_destination : Bool
  direction : Vector3
  destination : Vector3

/-- Source `FriendlyAircraft.take_damage`: subtract the damage; when the
resulting health is ≤ 0 it is clamped to exactly 0, `alive` is cleared and
the kill is reported. -/
def FriendlyAircraft.take_damage (f : FriendlyAircraft) (damage : ℝ) :
    FriendlyAircraft × Bool :=
  let h' := f.health - damage
  if h' ≤ 0 then ({ f with health := 0, alive := false }, true)
  else ({ f with health := h' }, false)

/-! ## PlayerAircraft (not present in the source tree) -/

/-- Modelled from the spec: the `PlayerAircraft` class is constructed and
called by the game controller (`SkyStrike.__init__`, `check_collisions`) but
its definition is missing from the source tree.  Only the fields the claims
read are modelled. -/
structure PlayerAircraft where
  position : Vector3
  health : ℝ
  max_health : ℝ
  alive : Bool

/-- Modelled from the spec: §4.1 states "Damage reduces health; health is
clamped at zero and triggers `alive = false` exactly once", mirroring
`FriendlyAircraft.take_damage`. -/
def PlayerAircraft.take_damage (p : PlayerAircraft) (damage : ℝ) : PlayerAircraft :=
  let h' := p.health - damage
  if h' ≤ 0 then { p with health := 0, alive := false }
  else { p with health := h' }

/-! ## Claim C1 — damage monotonicity, clamping, `alive` transitions -/

/-- A concrete scout-statted enemy used by several witnesses. -/
def sampleEnemy : Enemy :=
  { eid := 0, type := "scout", position := ⟨0, 0, 0⟩, health := 30,
    max_health := 30, speed := 60, size := 8, damage := 5,
    fire_cooldown := 0, state_timer := 0, state := EnemyState.PATROL,
    alive := true }

/-- A concrete escort aircraft used by witnesses. -/
def sampleFriendly : FriendlyAircraft :=
  { position := ⟨0, 0, 0⟩, speed := 40, health := 100, max_health := 100,
    alive := true, reached_destination := false, direction := ⟨1, 0, 0⟩,
    destination := ⟨400, 100, 0⟩ }

/-- A concrete player used by witnesses. -/
def samplePlayer : PlayerAircraft :=
  { position := ⟨0, 0, 0⟩, health := 100, max_health := 100, alive := true }

/-- Counterexample for C1: `Enemy.take_damage` does not clamp health at
zero — an alive enemy with 30 health hit for 35 ends with health −5 < 0. -/
theorem enemy_damage_no_clamp_counterexample :
    (sampleEnemy.take_damage 35).1.health = -5 ∧
    (sampleEnemy.take_damage 35).1.health < 0 ∧
    sampleEnemy.alive = true := by
  have : (30:ℝ) - 35 ≤ 0 := by norm_num
  refine ⟨?_, ?_, rfl⟩ <;> simp [Enemy.take_damage, sampleEnemy] <;> norm_num

/-- C1 (amended): for nonnegative damage, `take_damage` never increases
health for any entity; `FriendlyAircraft` (and the spec-modelled player)
clamp health at zero but `Enemy` does not; for every entity `alive` never
goes false→true and, on an alive entity, flips to false exactly when the
post-damage health reaches ≤ 0. -/
theorem take_damage_health_alive_spec :
    (∀ (e : Enemy) (d : ℝ), 0 ≤ d →
      (e.take_damage d).1.health ≤ e.health ∧
      ((e.take_damage d).1.alive = true → e.alive = true)) ∧
    (∀ (e : Enemy) (d : ℝ), e.alive = true →
      ((e.take_damage d).1.alive = false ↔ e.health - d ≤ 0)) ∧
    (∀ (f : FriendlyAircraft) (d : ℝ), 0 ≤ d → 0 ≤ f.health →
      (f.take_damage d).1.health ≤ f.health ∧ 0 ≤ (f.take_damage d).1.health ∧
      ((f.take_damage d).1.alive = true → f.alive = true)) ∧
    (∀ (f : FriendlyAircraft) (d : ℝ), f.alive = true →
      ((f.take_damage d).1.alive = false ↔ f.health - d ≤ 0)) ∧
    (∀ (p : PlayerAircraft) (d : ℝ), 0 ≤ d → 0 ≤ p.health →
      (p.take_damage d).health ≤ p.health ∧ 0 ≤ (p.take_damage d).health ∧
      ((p.take_damage d).alive = true → p.alive = true)) ∧
    (∀ (p : PlayerAircraft) (d : ℝ), p.alive = true →
      ((p.take_damage d).alive = false ↔ p.health - d ≤ 0)) := by
  refine ⟨?_, ?_, ?_, ?_, ?_, ?_⟩
  · intro e d hd
    by_cases h : e.health - d ≤ 0 <;>
      simp [Enemy.take_damage, h] <;> linarith
  · intro e d he
    by_cases h : e.health - d ≤ 0 <;>
      simp [Enemy.take_damage, h, he]
  · intro f d hd hh
    by_cases h : f.health - d ≤ 0
    · simpa [FriendlyAircraft.take_damage, h] using hh
    · simp [FriendlyAircraft.take_damage, h]
      constructor <;> linarith
  · intro f d hf
    by_cases h : f.health - d ≤ 0 <;>
      simp [FriendlyAircraft.take_damage, h, hf]
  · intro p d hd hh
    by_cases h : p.health - d ≤ 0
    · simpa [PlayerAircraft.take_damage, h] using hh
    · simp [PlayerAircraft.take_damage, h]
      constructor <;> linarith
  · intro p d hp
    by_cases h : p.health - d ≤ 0 <;>
      simp [PlayerAircraft.take_damage, h, hp]

/-- Witness for C1 (amended), instantiating every part on concrete
entities. -/
theorem take_damage_health_alive_spec_witness :
    ((sampleEnemy.take_damage 10).1.health ≤ sampleEnemy.health ∧
      ((sampleEnemy.take_damage 10).1.alive = true → sampleEnemy.alive = true)) ∧
    ((sampleEnemy.take_damage 35).1.alive = false ↔ sampleEnemy.health - 35 ≤ 0) ∧
    ((sampleFriendly.take_damage 10).1.health ≤ sampleFriendly.health ∧
      0 ≤ (sampleFriendly.take_damage 10).1.health ∧
      ((sampleFriendly.take_damage 10).1.alive = true → sampleFriendly.alive = true)) ∧
    ((sampleFriendly.take_damage 10).1.alive = false ↔ sampleFriendly.health - 10 ≤ 0) ∧
    ((samplePlayer.take_damage 10).health ≤ samplePlayer.health ∧
      0 ≤ (samplePlayer.take_damage 10).health ∧
      ((samplePlayer.take_damage 10).alive = true → samplePlayer.alive = true)) ∧
    ((samplePlayer.take_damage 10).alive = false ↔ samplePlayer.health - 10 ≤ 0) :=
  ⟨take_damage_health_alive_spec.1 sampleEnemy 10 (by norm_num),
   take_damage_health_alive_spec.2.1 sampleEnemy 35 rfl,
   take_damage_health_alive_spec.2.2.1 sampleFriendly 10 (by norm_num)
     (by norm_num [sampleFriendly]),
   take_damage_health_alive_spec.2.2.2.1 sampleFriendly 10 rfl,
   take_damage_health_alive_spec.2.2.2.2.1 samplePlayer 10 (by norm_num)
     (by norm_num [samplePlayer]),
   take_damage_health_alive_spec.2.2.2.2.2 samplePlayer 10 rfl⟩

/-! ## Claim C3 — enemy AI state precedence -/

/-- C3: on an alive enemy, `Enemy.update` selects the AI state from health
and distance to the player with precedence
EVADE (health < 30% of max) ≻ ATTACK (dist < 100) ≻ CHASE (dist < 200) ≻ PATROL. -/
theorem enemy_ai_state_precedence (e : Enemy) (dt : ℝ) (p : Vector3)
    (halive : e.alive = true) :
    (e.health < e.max_health * 0.3 →
      (e.updateState dt p).state = EnemyState.EVADE) ∧
    (¬ e.health < e.max_health * 0.3 → e.position.distance_to p < 100 →
      (e.updateState dt p).state = EnemyState.ATTACK) ∧
    (¬ e.health < e.max_health * 0.3 → ¬ e.position.distance_to p < 100 →
      e.position.distance_to p < 200 →
      (e.updateState dt p).state = EnemyState.CHASE) ∧
    (¬ e.health < e.max_health * 0.3 → ¬ e.position.distance_to p < 200 →
      (e.updateState dt p).state = EnemyState.PATROL) := by
  refine ⟨?_, ?_, ?_, ?_⟩
  · intro h1
    simp [Enemy.updateState, halive, h1]
  · intro h1 h2
    simp [Enemy.updateState, halive, h1, h2]
  · intro h1 h2 h3
    simp [Enemy.updateState, halive, h1, h2, h3]
  · intro h1 h2
    have h3 : ¬ e.position.distance_to p < 100 := by
      intro h
      exact h2 (by linarith)
    simp [Enemy.updateState, halive, h1, h2, h3]

/-- Witness for C3: a full-health enemy sitting on the player (distance 0)
transitions to ATTACK. -/
theorem enemy_ai_state_precedence_witness :
    (sampleEnemy.updateState 0.1 ⟨0, 0, 0⟩).state = EnemyState.ATTACK := by
  have hdist : sampleEnemy.position.distance_to ⟨0, 0, 0⟩ < 100 := by
    norm_num [sampleEnemy, Vector3.distance_to, Vector3.sub_def, Vector3.length]
  have hhp : ¬ sampleEnemy.health < sampleEnemy.max_health * 0.3 := by
    norm_num [sampleEnemy]
  exact (enemy_ai_state_precedence sampleEnemy 0.1 ⟨0, 0, 0⟩ rfl).2.1 hhp hdist

/-! ## Explosion (source: class `Explosion`) -/

/-- Visual explosion effect (source `Explosion.__init__`). -/
structure Explosion where
  position : Vector3
  age : ℝ
  max_age : ℝ
  size : ℝ
  max_size : ℝ

/-- Source `Explosion.__init__`. -/
def Explosion.init (position : Vector3) : Explosion :=
  { position := position, age := 0, max_age := 1.0, size := 5, max_size := 30 }

/-! ## Projectile (source: class `Projectile`) -/

/-- Bullets and missiles (source `Projectile`); `target` is never written
after construction and is omitted. -/
structure Projectile where
  position : Vector3
  direction : Vector3
  speed : ℝ
  damage : ℝ
  is_missile : Bool
  owner : String
  alive : Bool
  lifetime : ℝ
  max_lifetime : ℝ

/-- Source `Projectile.__init__`: the stored direction is the normalization
of the argument. -/
def Projectile.init (position direction : Vector3) (speed damage : ℝ)
    (is_missile : Bool) (owner : String) : Projectile :=
  { position := position, direction := direction.normalize, speed := speed,
    damage := damage, is_missile := is_missile, owner := owner,
    alive := true, lifetime := 0, max_lifetime := 5.0 }

/-- One step of the nearest-alive-enemy scan inside `Projectile.update`
(source lines 360–368): the accumulator is the running `(nearest, min_dist)`
pair, `none` standing for `nearest = None, min_dist = inf`. -/
def scanStep (pos : Vector3) (acc : Option (Enemy × ℝ)) (enemy : Enemy) :
    Option (Enemy × ℝ) :=
  if enemy.alive = true then
    let dist := pos.distance_to enemy.position
    match acc with
    | none => some (enemy, dist)
    | some (_, min_dist) => if dist < min_dist then some (enemy, dist) else acc
  else acc

/-- The whole nearest-alive-enemy scan of `Projectile.update`. -/
def scanNearest (pos : Vector3) (enemies : List Enemy) : Option (Enemy × ℝ) :=
  enemies.foldl (scanStep pos) none

open Classical in
/-- Source `Projectile.update`: age and expire, home (player missiles with a
non-empty enemy list), integrate the position, kill on world-bound exit. -/
def Projectile.update (p : Projectile) (dt : ℝ) (enemies : List Enemy) :
    Projectile :=
  let p₁ := { p with lifetime := p.lifetime + dt }
  if p₁.lifetime > p₁.max_lifetime then { p₁ with alive := false }
  else
    let p₂ :=
      if p₁.is_missile = true ∧ enemies ≠ [] ∧ p₁.owner = "player" then
        match scanNearest p₁.position enemies with
        | some (nearest, _) =>
          let to_target := (nearest.position - p₁.position).normalize
          { p₁ with direction :=
              (p₁.direction * (0.85:ℝ) + to_target * (0.15:ℝ)).normalize }
        | none => p₁
      else p₁
    let p₃ := { p₂ with position := p₂.position + p₂.direction * p₂.speed * dt }
    if |p₃.position.x| > WORLD_SIZE ∨ |p₃.position.z| > WORLD_SIZE ∨
       p₃.position.y < 0 ∨ p₃.position.y > WORLD_HEIGHT_MAX then
      { p₃ with alive := false }
    else p₃

/-! ### Properties of the nearest-enemy scan -/

theorem scanStep_cases (pos : Vector3) (acc : Option (Enemy × ℝ)) (x : Enemy) :
    scanStep pos acc x = acc ∨
    (x.alive = true ∧ scanStep pos acc x = some (x, pos.distance_to x.position)) := by
  by_cases hx : x.alive = true
  · cases acc with
    | none => right; exact ⟨hx, by simp [scanStep, hx]⟩
    | some a =>
      obtain ⟨b, db⟩ := a
      by_cases hlt : pos.distance_to x.position < db
      · right; exact ⟨hx, by simp [scanStep, hx, hlt]⟩
      · left; simp [scanStep, hx, hlt]
  · left; simp [scanStep, hx]

theorem scanStep_some_of_alive (pos : Vector3) (acc : Option (Enemy × ℝ))
    (x : Enemy) (hx : x.alive = true) :
    ∃ b db, scanStep pos acc x = some (b, db) ∧ db ≤ pos.distance_to x.position := by
  cases acc with
  | none => exact ⟨x, _, by simp [scanStep, hx], le_refl _⟩
  | some a =>
    obtain ⟨b, db⟩ := a
    by_cases hlt : pos.distance_to x.position < db
    · exact ⟨x, _, by simp [scanStep, hx, hlt], le_refl _⟩
    · exact ⟨b, db, by simp [scanStep, hx, hlt], le_of_not_lt hlt⟩

theorem scanStep_min (pos : Vector3) (acc : Option (Enemy × ℝ)) (x : Enemy)
    (a : Enemy) (da : ℝ) (hacc : acc = some (a, da))
    (b : Enemy) (db : ℝ) (hstep : scanStep pos acc x = some (b, db)) :
    db ≤ da := by
  subst hacc
  by_cases hx : x.alive = true
  · by_cases hlt : pos.distance_to x.position < da
    · simp [scanStep, hx, hlt] at hstep
      rw [← hstep.2]
      exact le_of_lt hlt
    · simp [scanStep, hx, hlt] at hstep
      exact le_of_eq hstep.2.symm
  · simp [scanStep, hx] at hstep
    exact le_of_eq hstep.2.symm

theorem scanFold_spec (pos : Vector3) (l : List Enemy) :
    ∀ (acc : Option (Enemy × ℝ)),
      (∀ a da, acc = some (a, da) →
        a.alive = true ∧ da = pos.distance_to a.position) →
      ∀ e d, l.foldl (scanStep pos) acc = some (e, d) →
        (e.alive = true ∧ d = pos.distance_to e.position) ∧
        (e ∈ l ∨ acc = some (e, d)) ∧
        (∀ e' ∈ l, e'.alive = true → d ≤ pos.distance_to e'.position) ∧
        (∀ a da, acc = some (a, da) → d ≤ da) := by
  induction l with
  | nil =>
    intro acc hacc e d h
    simp only [List.foldl_nil] at h
    refine ⟨hacc e d h, Or.inr h, by simp, ?_⟩
    intro a da ha
    rw [h] at ha
    cases ha
    exact le_refl _
  | cons x xs ih =>
    intro acc hacc e d h
    rw [List.foldl_cons] at h
    have hacc' : ∀ a da, scanStep pos acc x = some (a, da) →
        a.alive = true ∧ da = pos.distance_to a.position := by
      intro a da ha
      rcases scanStep_cases pos acc x with hc | ⟨hx, hc⟩
      · exact hacc a da (hc ▸ ha)
      · rw [hc] at ha
        cases ha
        exact ⟨hx, rfl⟩
    obtain ⟨h1, h2, h3, h4⟩ := ih (scanStep pos acc x) hacc' e d h
    refine ⟨h1, ?_, ?_, ?_⟩
    · rcases h2 with hm | hs
      · exact Or.inl (List.mem_cons_of_mem x hm)
      · rcases scanStep_cases pos acc x with hc | ⟨hx, hc⟩
        · exact Or.inr (hc ▸ hs)
        · rw [hc] at hs
          cases hs
          exact Or.inl (List.mem_cons_self _ _)
    · intro e' he' halive'
      rcases List.mem_cons.mp he' with rfl | hm
      · obtain ⟨b, db, hb, hble⟩ := scanStep_some_of_alive pos acc e' halive'
        exact le_trans (h4 b db hb) hble
      · exact h3 e' hm halive'
    · intro a da ha
      rcases scanStep_cases pos acc x with hc | ⟨hx, hc⟩
      · exact h4 a da (hc.trans ha)
      · exact le_trans (h4 x (pos.distance_to x.position) hc)
          (scanStep_min pos acc x a da ha x (pos.distance_to x.position) hc)

/-- Summary property of the scan: a returned `(e, d)` is an alive enemy of
the list at distance `d`, minimal among all alive enemies. -/
theorem scanNearest_spec (pos : Vector3) (enemies : List Enemy) (e : Enemy)
    (d : ℝ) (h : scanNearest pos enemies = some (e, d)) :
    e ∈ enemies ∧ e.alive = true ∧ d = pos.distance_to e.position ∧
    ∀ e' ∈ enemies, e'.alive = true → d ≤ pos.distance_to e'.position := by
  obtain ⟨⟨h1, h2⟩, h3, h4, _⟩ :=
    scanFold_spec pos enemies none (by simp) e d h
  rcases h3 with hm | hs
  · exact ⟨hm, h1, h2, h4⟩
  · cases hs

/-! ### Properties of `Projectile.update` -/

theorem Projectile.update_expired (p : Projectile) (dt : ℝ) (enemies : List Enemy)
    (hexp : p.lifetime + dt > p.max_lifetime) :
    p.update dt enemies = { p with lifetime := p.lifetime + dt, alive := false } := by
  simp [Projectile.update, hexp]

theorem Projectile.update_direction_homing (p : Projectile) (dt : ℝ)
    (enemies : List Enemy) (nearest : Enemy) (d : ℝ)
    (hexp : ¬ p.lifetime + dt > p.max_lifetime)
    (hm : p.is_missile = true) (hne : enemies ≠ []) (ho : p.owner = "player")
    (hscan : scanNearest p.position enemies = some (nearest, d)) :
    (p.update dt enemies).direction =
      (p.direction * (0.85:ℝ)
        + (nearest.position - p.position).normalize * (0.15:ℝ)).normalize := by
  simp only [Projectile.update, hexp, if_false, hm, hne, ho, hscan]
  simp [hexp, hm, hne, ho, hscan]
  split <;> rfl

theorem Projectile.update_direction_of_not_cond (p : Projectile) (dt : ℝ)
    (enemies : List Enemy)
    (hexp : ¬ p.lifetime + dt > p.max_lifetime)
    (hc : ¬ (p.is_missile = true ∧ enemies ≠ [] ∧ p.owner = "player")) :
    (p.update dt enemies).direction = p.direction := by
  simp only [Projectile.update]
  simp [hexp, hc]
  split <;> rfl

theorem Projectile.update_direction_of_scan_none (p : Projectile) (dt : ℝ)
    (enemies : List Enemy)
    (hexp : ¬ p.lifetime + dt > p.max_lifetime)
    (hscan : scanNearest p.position enemies = none) :
    (p.update dt enemies).direction = p.direction := by
  by_cases hc : p.is_missile = true ∧ enemies ≠ [] ∧ p.owner = "player"
  · simp only [Projectile.update]
    simp [hexp, hc, hscan]
    split <;> rfl
  · exact Projectile.update_direction_of_not_cond p dt enemies hexp hc

theorem Projectile.update_position_eq (p : Projectile) (dt : ℝ)
    (enemies : List Enemy)
    (hexp : ¬ p.lifetime + dt > p.max_lifetime) :
    (p.update dt enemies).position =
      p.position + (p.update dt enemies).direction * p.speed * dt := by
  by_cases hc : p.is_missile = true ∧ enemies ≠ [] ∧ p.owner = "player"
  · rcases hscan : scanNearest p.position enemies with _ | ⟨nearest, d⟩
    · simp only [Projectile.update]
      simp [hexp, hc, hscan]
      split <;> rfl
    · simp only [Projectile.update]
      simp [hexp, hc, hscan]
      split <;> rfl
  · simp only [Projectile.update]
    simp [hexp, hc]
    split <;> rfl

/-- The homing blend of a unit direction with a zero-or-unit target
direction is never the zero vector (its length is at least 0.7). -/
theorem blend_ne_zero {dir t : Vector3} (hdir : dir.length = 1)
    (ht : t.length = 0 ∨ t.length = 1) :
    dir * (0.85:ℝ) + t * (0.15:ℝ) ≠ (⟨0, 0, 0⟩ : Vector3) := by
  intro hzero
  have hx := congrArg Vector3.x hzero
  have hy := congrArg Vector3.y hzero
  have hz := congrArg Vector3.z hzero
  simp [Vector3.add_def, Vector3.mul_def] at hx hy hz
  have hdx : dir.x = -(3/17) * t.x := by linarith
  have hdy : dir.y = -(3/17) * t.y := by linarith
  have hdz : dir.z = -(3/17) * t.z := by linarith
  have hd2 : dir.x ^ 2 + dir.y ^ 2 + dir.z ^ 2 = 1 := by
    have := Vector3.sq_length dir
    rw [hdir] at this
    simpa using this.symm
  have ht2 : t.x ^ 2 + t.y ^ 2 + t.z ^ 2 = 0 ∨ t.x ^ 2 + t.y ^ 2 + t.z ^ 2 = 1 := by
    rcases ht with h | h
    · left
      have := Vector3.sq_length t
      rw [h] at this
      simpa using this.symm
    · right
      have := Vector3.sq_length t
      rw [h] at this
      simpa using this.symm
  have hkey : dir.x ^ 2 + dir.y ^ 2 + dir.z ^ 2
      = (9 / 289) * (t.x ^ 2 + t.y ^ 2 + t.z ^ 2) := by
    rw [hdx, hdy, hdz]
    ring
  rcases ht2 with h | h <;> rw [h] at hkey <;> linarith

/-- A projectile update never destroys unit length of the direction. -/
theorem Projectile.update_preserves_unit (p : Projectile) (dt : ℝ)
    (enemies : List Enemy) (h : p.direction.length = 1) :
    (p.update dt enemies).direction.length = 1 := by
  by_cases hexp : p.lifetime + dt > p.max_lifetime
  · rw [Projectile.update_expired p dt enemies hexp]
    exact h
  · by_cases hc : p.is_missile = true ∧ enemies ≠ [] ∧ p.owner = "player"
    · rcases hscan : scanNearest p.position enemies with _ | ⟨nearest, d⟩
      · rw [Projectile.update_direction_of_scan_none p dt enemies hexp hscan]
        exact h
      · rw [Projectile.update_direction_homing p dt enemies nearest d hexp
          hc.1 hc.2.1 hc.2.2 hscan]
        have hbz := blend_ne_zero h
          (Vector3.normalize_zero_or_unit (nearest.position - p.position))
        exact Vector3.normalize_length
          (fun h0 => hbz ((Vector3.length_eq_zero_iff _).mp h0))
    · rw [Projectile.update_direction_of_not_cond p dt enemies hexp hc]
      exact h

theorem Vector3.distance_to_add (a w : Vector3) :
    a.distance_to (a + w) = w.length := by
  simp only [Vector3.distance_to, Vector3.sub_def, Vector3.add_def, Vector3.length]
  congr 1
  ring

/-! ## Claim C2 — missile homing: nearest alive enemy, 85/15 blend -/

/-- A player missile flying straight ahead along the x axis. -/
def missile0 : Projectile :=
  { position := ⟨0, 0, 0⟩, direction := ⟨1, 0, 0⟩, speed := 200, damage := 50,
    is_missile := true, owner := "player", alive := true, lifetime := 0,
    max_lifetime := 5 }

/-- An alive enemy directly to the missile's right (along the z axis). -/
def enemyRight : Enemy := { sampleEnemy with position := ⟨0, 0, 100⟩ }

theorem scanNearest_missile0 :
    scanNearest missile0.position [enemyRight] =
      some (enemyRight, missile0.position.distance_to enemyRight.position) := by
  simp [scanNearest, scanStep, enemyRight, sampleEnemy]

theorem to_target_missile0 :
    (enemyRight.position - missile0.position).normalize = ⟨0, 0, 1⟩ := by
  have hlen : ((⟨0, 0, 100⟩ : Vector3) - ⟨0, 0, 0⟩).length = 100 := by
    simp only [Vector3.sub_def, Vector3.length]
    norm_num
    rw [show (10000:ℝ) = 100 ^ 2 by norm_num, Real.sqrt_sq (by norm_num : (0:ℝ) ≤ 100)]
  show ((⟨0, 0, 100⟩ : Vector3) - ⟨0, 0, 0⟩).normalize = ⟨0, 0, 1⟩
  rw [Vector3.normalize, hlen]
  norm_num
  simp [Vector3.sub_def]

theorem missile0_update_direction :
    (missile0.update 0.1 [enemyRight]).direction =
      ⟨0.85 / Real.sqrt 0.745, 0, 0.15 / Real.sqrt 0.745⟩ := by
  have hexp : ¬ missile0.lifetime + 0.1 > missile0.max_lifetime := by
    norm_num [missile0]
  rw [Projectile.update_direction_homing missile0 0.1 [enemyRight] enemyRight
      (missile0.position.distance_to enemyRight.position) hexp rfl (by simp) rfl
      scanNearest_missile0]
  rw [to_target_missile0]
  have hblend : missile0.direction * (0.85:ℝ) + (⟨0, 0, 1⟩ : Vector3) * (0.15:ℝ)
      = ⟨0.85, 0, 0.15⟩ := by
    simp [missile0, Vector3.mul_def, Vector3.add_def]
  rw [hblend]
  have hlen : (⟨0.85, 0, 0.15⟩ : Vector3).length = Real.sqrt 0.745 := by
    simp only [Vector3.length]
    norm_num
  rw [Vector3.normalize, hlen]
  rw [if_pos (Real.sqrt_pos.mpr (by norm_num))]
  norm_num

theorem angleBetween_straight_target :
    angleBetween missile0.direction ((enemyRight.position - missile0.position).normalize)
      = π / 2 := by
  rw [to_target_missile0]
  have h1 : missile0.direction.length = 1 := by
    simp only [missile0, Vector3.length]
    norm_num
  have h2 : (⟨0, 0, 1⟩ : Vector3).length = 1 := by
    simp only [Vector3.length]
    norm_num
  rw [angleBetween, h1, h2]
  simp [Vector3.dot, missile0, Real.arccos_zero]

theorem sqrt_745_lb : (0.85:ℝ) ≤ Real.sqrt 0.745 := by
  rw [show (0.85:ℝ) = Real.sqrt (0.85 ^ 2) from (Real.sqrt_sq (by norm_num)).symm]
  exact Real.sqrt_le_sqrt (by norm_num)

theorem sqrt_745_ub : Real.sqrt 0.745 ≤ 0.8635 := by
  rw [show (0.8635:ℝ) = Real.sqrt (0.8635 ^ 2) from (Real.sqrt_sq (by norm_num)).symm]
  exact Real.sqrt_le_sqrt (by norm_num)

theorem angleBetween_missile0_new :
    angleBetween missile0.direction (⟨0.85 / Real.sqrt 0.745, 0, 0.15 / Real.sqrt 0.745⟩)
      = Real.arccos (0.85 / Real.sqrt 0.745) := by
  have hs : (0:ℝ) < Real.sqrt 0.745 := Real.sqrt_pos.mpr (by norm_num)
  have hs2 : Real.sqrt 0.745 ^ 2 = 0.745 := Real.sq_sqrt (by norm_num)
  have h1 : missile0.direction.length = 1 := by
    simp only [missile0, Vector3.length]
    norm_num
  have h2 : (⟨0.85 / Real.sqrt 0.745, 0, 0.15 / Real.sqrt 0.745⟩ : Vector3).length = 1 := by
    simp only [Vector3.length]
    have : (0.85 / Real.sqrt 0.745) ^ 2 + (0:ℝ) ^ 2 + (0.15 / Real.sqrt 0.745) ^ 2 = 1 := by
      field_simp
      nlinarith [hs2]
    rw [this, Real.sqrt_one]
  rw [angleBetween, h1, h2]
  have : missile0.direction.dot ⟨0.85 / Real.sqrt 0.745, 0, 0.15 / Real.sqrt 0.745⟩
      = 0.85 / Real.sqrt 0.745 := by
    simp [Vector3.dot, missile0]
  rw [this]
  norm_num

set_option maxHeartbeats 1000000 in
/-- Counterexample for C2: in the canonical scenario (straight-ahead
missile, target directly to the right) one guidance update yields direction
(0.85, 0, 0.15)/√0.745, whose angle from the original direction is
arctan(3/17) ≈ 10.0° — NOT 15% of the 90° angular gap (13.5°). -/
theorem missile_blend_angle_counterexample :
    (missile0.update 0.1 [enemyRight]).direction
      = ⟨0.85 / Real.sqrt 0.745, 0, 0.15 / Real.sqrt 0.745⟩ ∧
    angleBetween missile0.direction ((missile0.update 0.1 [enemyRight]).direction)
      ≠ 0.15 * angleBetween missile0.direction
          ((enemyRight.position - missile0.position).normalize) := by
  refine ⟨missile0_update_direction, ?_⟩
  rw [missile0_update_direction, angleBetween_straight_target,
    angleBetween_missile0_new]
  intro heq
  have hs : (0:ℝ) < Real.sqrt 0.745 := Real.sqrt_pos.mpr (by norm_num)
  have hub : 0.85 / Real.sqrt 0.745 ≤ 1 := by
    rw [div_le_one hs]
    exact sqrt_745_lb
  have hlb : (-1:ℝ) ≤ 0.85 / Real.sqrt 0.745 :=
    le_trans (by norm_num) (by positivity : (0:ℝ) ≤ 0.85 / Real.sqrt 0.745)
  have hcos : Real.cos (Real.arccos (0.85 / Real.sqrt 0.745))
      = 0.85 / Real.sqrt 0.745 := Real.cos_arccos hlb hub
  rw [heq] at hcos
  set c : ℝ := 0.15 * (π / 2) with hc
  have hπl : (3.14:ℝ) < π := by
    have := Real.pi_gt_d2
    linarith
  have hπu : π < 3.15 := by
    have := Real.pi_lt_d2
    linarith
  have hcl : (0.2355:ℝ) < c := by
    rw [hc]
    nlinarith
  have hcu : c < 0.23625 := by
    rw [hc]
    nlinarith
  have hcabs : |c| ≤ 1 := by
    rw [abs_of_pos (by linarith)]
    linarith
  have hbound := Real.cos_bound hcabs
  have habs : |c| = c := abs_of_pos (by linarith)
  rw [habs] at hbound
  have hcos_ub : Real.cos c ≤ 1 - c ^ 2 / 2 + c ^ 4 * (5 / 96) := by
    have := abs_le.mp hbound
    linarith [this.2]
  have hc2l : (0.05546:ℝ) < c ^ 2 := by nlinarith
  have hc2u : c ^ 2 < 0.05582 := by nlinarith
  have hc4 : c ^ 4 < 0.0031161 := by nlinarith [sq_nonneg c]
  have hcos_small : Real.cos c ≤ 0.973 := by nlinarith
  have hmul : Real.cos c * Real.sqrt 0.745 = 0.85 := by
    rw [hcos]
    field_simp
  have hcpos : 0 < Real.cos c := by
    rw [hcos]
    positivity
  nlinarith [sqrt_745_ub, hs, hmul, hcos_small, hcpos]

/-- C2 (amended): a player missile with at least one enemy in the scan
result homes on the scan's chosen enemy — an alive enemy at minimal
straight-line distance among all alive enemies — and its new direction is
the normalization of 0.85 × current direction + 0.15 × unit vector toward
that enemy (a linear blend of the direction vectors; the angle moved is
arctan(3/17) of a right-angle gap, not exactly 15% of it). -/
theorem missile_homing_nearest_blend (p : Projectile) (dt : ℝ)
    (enemies : List Enemy) (nearest : Enemy) (d : ℝ)
    (hexp : ¬ p.lifetime + dt > p.max_lifetime)
    (hm : p.is_missile = true) (hne : enemies ≠ []) (ho : p.owner = "player")
    (hscan : scanNearest p.position enemies = some (nearest, d)) :
    (p.update dt enemies).direction =
      (p.direction * (0.85:ℝ)
        + (nearest.position - p.position).normalize * (0.15:ℝ)).normalize ∧
    nearest ∈ enemies ∧ nearest.alive = true ∧
    d = p.position.distance_to nearest.position ∧
    ∀ e' ∈ enemies, e'.alive = true → d ≤ p.position.distance_to e'.position := by
  obtain ⟨h1, h2, h3, h4⟩ := scanNearest_spec p.position enemies nearest d hscan
  exact ⟨Projectile.update_direction_homing p dt enemies nearest d hexp hm hne ho hscan,
    h1, h2, h3, h4⟩

/-- Witness for C2 (amended): the straight-ahead missile with the single
enemy to its right. -/
theorem missile_homing_nearest_blend_witness :
    (missile0.update 0.1 [enemyRight]).direction =
      (missile0.direction * (0.85:ℝ)
        + (enemyRight.position - missile0.position).normalize * (0.15:ℝ)).normalize ∧
    enemyRight ∈ [enemyRight] ∧ enemyRight.alive = true ∧
    missile0.position.distance_to enemyRight.position
      = missile0.position.distance_to enemyRight.position ∧
    ∀ e' ∈ [enemyRight], e'.alive = true →
      missile0.position.distance_to enemyRight.position
        ≤ missile0.position.distance_to e'.position :=
  missile_homing_nearest_blend missile0 0.1 [enemyRight] enemyRight
    (missile0.position.distance_to enemyRight.position)
    (by norm_num [missile0]) rfl (by simp) rfl scanNearest_missile0

/-! ## Claim C10 — projectile direction stays a unit vector -/

/-- A player missile constructed with a zero direction argument. -/
def missileZero : Projectile :=
  Projectile.init ⟨0, 0, 0⟩ ⟨0, 0, 0⟩ 200 50 true "player"

theorem missileZero_direction : missileZero.direction = ⟨0, 0, 0⟩ := by
  show (⟨0, 0, 0⟩ : Vector3).normalize = ⟨0, 0, 0⟩
  rw [Vector3.normalize]
  rw [if_neg]
  intro h
  have : (⟨0, 0, 0⟩ : Vector3).length = 0 := by
    simp [Vector3.length]
  rw [this] at h
  exact lt_irrefl 0 h

theorem missileZero_update_direction :
    (missileZero.update 0.1 [enemyRight]).direction = ⟨0, 0, 1⟩ := by
  have hscan : scanNearest missileZero.position [enemyRight]
      = some (enemyRight, missileZero.position.distance_to enemyRight.position) := by
    simp [scanNearest, scanStep, enemyRight, sampleEnemy]
  rw [Projectile.update_direction_homing missileZero 0.1 [enemyRight] enemyRight
      (missileZero.position.distance_to enemyRight.position)
      (by norm_num [missileZero, Projectile.init]) rfl (by simp) rfl hscan]
  rw [missileZero_direction]
  have ht : (enemyRight.position - missileZero.position).normalize
      = (⟨0, 0, 1⟩ : Vector3) := to_target_missile0
  rw [ht]
  have hb : (⟨0, 0, 0⟩ : Vector3) * (0.85:ℝ) + (⟨0, 0, 1⟩ : Vector3) * (0.15:ℝ)
      = ⟨0, 0, 0.15⟩ := by
    simp [Vector3.mul_def, Vector3.add_def]
  rw [hb]
  have hlen : (⟨0, 0, 0.15⟩ : Vector3).length = 0.15 := by
    simp only [Vector3.length]
    rw [show (0:ℝ) ^ 2 + 0 ^ 2 + (0.15:ℝ) ^ 2 = 0.15 ^ 2 by norm_num,
      Real.sqrt_sq (by norm_num : (0:ℝ) ≤ 0.15)]
  rw [Vector3.normalize, hlen]
  rw [if_pos (by norm_num : (0:ℝ) < 0.15)]
  norm_num

/-- Counterexample for C10: a player missile constructed with a zero
direction does NOT keep the zero direction — after one homing update with an
alive enemy at a distinct position its direction becomes the unit vector
toward that enemy. -/
theorem projectile_zero_direction_counterexample :
    missileZero.direction = ⟨0, 0, 0⟩ ∧
    (missileZero.update 0.1 [enemyRight]).direction = ⟨0, 0, 1⟩ ∧
    (missileZero.update 0.1 [enemyRight]).direction ≠ ⟨0, 0, 0⟩ ∧
    ((missileZero.update 0.1 [enemyRight]).direction).length = 1 := by
  refine ⟨missileZero_direction, missileZero_update_direction, ?_, ?_⟩
  · rw [missileZero_update_direction]
    intro h
    have := congrArg Vector3.z h
    norm_num at this
  · rw [missileZero_update_direction]
    simp only [Vector3.length]
    rw [show (0:ℝ) ^ 2 + 0 ^ 2 + (1:ℝ) ^ 2 = 1 by norm_num]
    exact Real.sqrt_one

/-- C10 (amended): a projectile constructed with a nonzero direction
argument has a unit direction, every update preserves unit length of the
direction (including homing blends, which renormalize), and on an update
that does not expire the projectile the position moves by exactly
speed × dt when the direction is a unit vector. -/
theorem projectile_direction_unit_spec :
    (∀ (position direction : Vector3) (speed damage : ℝ) (im : Bool) (ow : String),
      direction ≠ ⟨0, 0, 0⟩ →
      (Projectile.init position direction speed damage im ow).direction.length = 1) ∧
    (∀ (p : Projectile) (dt : ℝ) (enemies : List Enemy),
      p.direction.length = 1 → (p.update dt enemies).direction.length = 1) ∧
    (∀ (p : Projectile) (dt : ℝ) (enemies : List Enemy),
      p.direction.length = 1 → ¬ p.lifetime + dt > p.max_lifetime →
      0 ≤ p.speed → 0 ≤ dt →
      p.position.distance_to ((p.update dt enemies).position) = p.speed * dt) := by
  refine ⟨?_, ?_, ?_⟩
  · intro pos dir speed damage im ow hne
    show dir.normalize.length = 1
    exact Vector3.normalize_length
      (fun h0 => hne ((Vector3.length_eq_zero_iff _).mp h0))
  · exact fun p dt enemies h => Projectile.update_preserves_unit p dt enemies h
  · intro p dt enemies h hexp hsp hdt
    rw [Projectile.update_position_eq p dt enemies hexp, Vector3.distance_to_add]
    have hu : ((p.update dt enemies).direction).length = 1 :=
      Projectile.update_preserves_unit p dt enemies h
    rw [Vector3.length_mul, Vector3.length_mul, hu]
    rw [abs_of_nonneg hdt, abs_of_nonneg hsp]
    ring

/-- Witness for C10 (amended): the straight-ahead missile of the C2
scenario. -/
theorem projectile_direction_unit_spec_witness :
    (Projectile.init ⟨0, 0, 0⟩ ⟨1, 0, 0⟩ 200 50 true "player").direction.length = 1 ∧
    (missile0.update 0.1 [enemyRight]).direction.length = 1 ∧
    missile0.position.distance_to ((missile0.update 0.1 [enemyRight]).position)
      = missile0.speed * 0.1 := by
  have h1 : missile0.direction.length = 1 := by
    simp only [missile0, Vector3.length]
    norm_num
  refine ⟨projectile_direction_unit_spec.1 ⟨0, 0, 0⟩ ⟨1, 0, 0⟩ 200 50 true "player" ?_,
    projectile_direction_unit_spec.2.1 missile0 0.1 [enemyRight] h1,
    projectile_direction_unit_spec.2.2 missile0 0.1 [enemyRight] h1
      (by norm_num [missile0]) (by norm_num [missile0]) (by norm_num)⟩
  intro hcontra
  have := congrArg Vector3.x hcontra
  norm_num at this

/-! ## Mission system (source: class `Mission`, list `MISSIONS`) -/

/-- Mission objective parameters (source: the per-mission `objectives`
dicts).  `Option` fields encode presence of the corresponding dict key for
the keys whose presence the code tests; the remaining fields are read only
by the mission types whose construction sets them. -/
structure Objectives where
  target_type : Option String := none
  target_count : ℕ := 0
  targets : Option (List (String × ℕ)) := none
  duration : ℝ := 0
  escort_health : ℝ := 0
  escort_speed : ℝ := 0
  max_breaches : ℕ := 0
  enemy_waves : ℕ := 0
  boss_health : ℝ := 0
  boss_type : String := ""

/-- Mission definition (source `Mission.__init__`). -/
structure Mission where
  id : ℕ
  name : String
  type : ℕ
  description : String
  objectives : Objectives
  completed : Bool
  unlocked : Bool

/-- Source `Mission.__init__`: `completed = False`,
`unlocked = (mission_id == 0)` — the first mission is unlocked by default. -/
def Mission.make (mission_id : ℕ) (name : String) (mission_type : ℕ)
    (description : String) (objectives : Objectives) : Mission :=
  { id := mission_id, name := name, type := mission_type,
    description := description, objectives := objectives,
    completed := false, unlocked := decide (mission_id = 0) }

/-- Source: the static `MISSIONS` catalog. -/
def MISSIONS : List Mission :=
  [Mission.make 0 "First Contact" MissionType.ELIMINATION
    "Destroy 3 Scout Drones" { target_type := some "scout", target_count := 3 },
   Mission.make 1 "Survival Test" MissionType.SURVIVAL
    "Survive for 60 seconds" { duration := 60 },
   Mission.make 2 "Strike Force" MissionType.ELIMINATION
    "Destroy 5 Attack Jets" { target_type := some "jet", target_count := 5 },
   Mission.make 3 "Escort Duty" MissionType.ESCORT
    "Protect the transport aircraft" { escort_health := 100, escort_speed := 40 },
   Mission.make 4 "Base Defense" MissionType.DEFENSE
    "Stop 10 enemies from reaching the base" { max_breaches := 3, enemy_waves := 10 },
   Mission.make 5 "Ace Showdown" MissionType.BOSS
    "Defeat the enemy Ace Pilot" { boss_health := 400, boss_type := "jet" },
   Mission.make 6 "Final Assault" MissionType.ELIMINATION
    "Destroy 3 Bombers and 5 Jets" { targets := some [("bomber", 3), ("jet", 5)] }]

/-! ## DefenseBase (source: class `DefenseBase`) -/

/-- Base that needs to be defended (source `DefenseBase.__init__`). -/
structure DefenseBase where
  position : Vector3
  size : ℝ
  breach_radius : ℝ
  breaches : ℕ

/-- Source `DefenseBase.__init__`. -/
def DefenseBase.init : DefenseBase :=
  { position := ⟨0, 50, 0⟩, size := 30, breach_radius := 100, breaches := 0 }

/-- Source `DefenseBase.check_breach`: is the enemy strictly inside the
breach radius? -/
def DefenseBase.check_breach (b : DefenseBase) (enemy_position : Vector3) : Bool :=
  decide (b.position.distance_to enemy_position < b.breach_radius)

/-! ## Game controller state (source: class `SkyStrike`) -/

/-- The game-controller fields mutated by the modelled update and collision
steps (source `SkyStrike.__init__`).  `current_mission` holds the index of
the active mission inside `missions` (the source stores a reference to the
very `Mission` object held in the global `MISSIONS` list, which the index
models); `mission_kills` is the kills-by-type dict as a total function with
default 0; `breached_enemies` is the set of `eid`s of enemies already
counted as breaches (source: a set of Python object ids). -/
structure SkyStrike where
  state : ℕ
  player : PlayerAircraft
  enemies : List Enemy
  explosions : List Explosion
  score : ℤ
  combo : ℕ
  combo_timer : ℝ
  shots_hit : ℕ
  god_mode : Bool
  missions : List Mission
  current_mission : Option ℕ
  mission_kills : String → ℕ
  defense_base : Option DefenseBase
  breached_enemies : List ℕ

/-- The mission-completion block shared by the completion sites (source
lines 1002–1005 and the like): set state to MISSION_COMPLETE, mark the
current mission (index `i`) completed, and unlock the mission after the
current mission's id when one exists. -/
def completeMission (g : SkyStrike) (i : ℕ) : SkyStrike :=
  let ms₁ := match g.missions[i]? with
    | some m => g.missions.set i { m with completed := true }
    | none => g.missions
  let mid := match g.missions[i]? with
    | some m => m.id
    | none => i
  let ms₂ :=
    if mid < ms₁.length - 1 then
      match ms₁[mid + 1]? with
      | some m2 => ms₁.set (mid + 1) { m2 with unlocked := true }
      | none => ms₁
    else ms₁
  { g with state := GameState.MISSION_COMPLETE, missions := ms₂ }

/-- The kill-tracking block of `check_collisions` (source lines 992–1017):
credit the kill to the per-type counter and, for ELIMINATION missions,
evaluate completion against the objectives. -/
def trackMissionKill (g : SkyStrike) (etype : String) : SkyStrike :=
  match g.current_mission with
  | none => g
  | some i =>
    let kills' := fun t => if t = etype then g.mission_kills t + 1 else g.mission_kills t
    let g' := { g with mission_kills := kills' }
    match g'.missions[i]? with
    | none => g'
    | some m =>
      if m.type = MissionType.ELIMINATION then
        match m.objectives.target_type with
        | some tt =>
          if m.objectives.target_count ≤ kills' tt then completeMission g' i else g'
        | none =>
          match m.objectives.targets with
          | some ts =>
            if ts.all (fun tc => decide (tc.2 ≤ kills' tc.1)) then completeMission g' i
            else g'
          | none => g'
      else g'

/-- Source line 1020: the per-type base score dict
`{"scout": 100, "jet": 200, "bomber": 300}` (defined on exactly these three
keys — every enemy the game constructs carries one of them). -/
def baseScore (etype : String) : ℤ :=
  if etype = "scout" then 100 else if etype = "jet" then 200 else 300

/-- Source lines 1020–1024: points = int(base_score × (1 + combo × 0.5) ×
(2 if missile else 1)), computed in exact arithmetic and truncated. -/
def killPoints (etype : String) (combo : ℕ) (is_missile : Bool) : ℤ :=
  Int.floor ((baseScore etype : ℚ) * (1 + (combo : ℚ) * 0.5) *
    (if is_missile = true then (2:ℚ) else 1))

/-- One (projectile, enemy) interaction of collision step 1 (source
`check_collisions` lines 975–1031): a live player-owned projectile within
the enemy's size radius is consumed and counted as a hit, then damages the
enemy; on a kill this spawns one explosion at the enemy's position, runs the
mission kill tracking, adds the points and advances the combo. -/
def processProjEnemy (g : SkyStrike) (proj : Projectile) (enemy : Enemy) :
    SkyStrike × Projectile × Enemy :=
  if proj.alive = true ∧ proj.owner = "player" ∧ enemy.alive = true ∧
      proj.position.distance_to enemy.position < enemy.size then
    let proj' := { proj with alive := false }
    let g₁ := { g with shots_hit := g.shots_hit + 1 }
    let res := enemy.take_damage proj.damage
    if res.2 = true then
      let g₂ := { g₁ with
        explosions := g₁.explosions ++ [Explosion.init enemy.position] }
      let g₃ := trackMissionKill g₂ enemy.type
      let g₄ := { g₃ with
        score := g₃.score + killPoints enemy.type g₃.combo proj.is_missile,
        combo := g₃.combo + 1,
        combo_timer := 3.0 }
      (g₄, proj', res.1)
    else (g₁, proj', res.1)
  else (g, proj, enemy)

/-- The DEFENSE breach check of `SkyStrike.update` (source lines 825–833):
walk the enemy list; an alive enemy not yet counted whose position breaches
the base joins the breached set and increments the breach counter; the
moment the counter reaches `max_breaches` the state becomes MISSION_FAILED
and the update returns immediately. -/
def breachLoop (g : SkyStrike) (max_breaches : ℕ) : List Enemy → SkyStrike
  | [] => g
  | enemy :: rest =>
    match g.defense_base with
    | none => g
    | some base =>
      if enemy.alive = true ∧ enemy.eid ∉ g.breached_enemies ∧
          base.check_breach enemy.position = true then
        let base' := { base with breaches := base.breaches + 1 }
        let g' := { g with
          breached_enemies := enemy.eid :: g.breached_enemies,
          defense_base := some base' }
        if max_breaches ≤ base'.breaches then
          { g' with state := GameState.MISSION_FAILED }
        else breachLoop g' max_breaches rest
      else breachLoop g max_breaches rest

/-- The combo decay step of `SkyStrike.update` (source lines 929–933): while
the combo is positive the timer counts down by dt, and on reaching ≤ 0 the
combo resets to zero. -/
def comboDecayStep (combo : ℕ) (combo_timer : ℝ) (dt : ℝ) : ℕ × ℝ :=
  if 0 < combo then
    let t := combo_timer - dt
    if t ≤ 0 then (0, t) else (combo, t)
  else (combo, combo_timer)

/-- Iterated combo decay across a list of frame times with no intervening
kill. -/
def comboDecayRun (combo : ℕ) (combo_timer : ℝ) : List ℝ → ℕ × ℝ
  | [] => (combo, combo_timer)
  | dt :: rest =>
    let s := comboDecayStep combo combo_timer dt
    comboDecayRun s.1 s.2 rest

/-- One enemy of the enemy-vs-player body-collision loop (source
`check_collisions` lines 1060–1065): on contact within (enemy size + 10) the
enemy takes damage equal to its own max health, the player takes a fixed 30,
and an explosion spawns at the enemy's position. -/
def enemyPlayerCollision (g : SkyStrike) (enemy : Enemy) : SkyStrike × Enemy :=
  if enemy.alive = true ∧ g.player.alive = true ∧
      enemy.position.distance_to g.player.position < enemy.size + 10 then
    let res := enemy.take_damage enemy.max_health
    let g' := { g with player := g.player.take_damage 30,
                       explosions := g.explosions ++ [Explosion.init enemy.position] }
    (g', res.1)
  else (g, enemy)

/-- The enemy-vs-player loop body over the enemy list. -/
def enemyPlayerLoop (g : SkyStrike) : List Enemy → SkyStrike × List Enemy
  | [] => (g, [])
  | enemy :: rest =>
    let s := enemyPlayerCollision g enemy
    let r := enemyPlayerLoop s.1 rest
    (r.1, s.2 :: r.2)

/-- The whole enemy-vs-player collision pass (source lines 1058–1065),
skipped entirely under god mode. -/
def checkEnemyPlayerCollisions (g : SkyStrike) : SkyStrike :=
  if g.god_mode = true then g
  else
    let r := enemyPlayerLoop g g.enemies
    { r.1 with enemies := r.2 }

/-! ### Properties of the kill-processing block -/

theorem trackMissionKill_preserves (g : SkyStrike) (etype : String) :
    (trackMissionKill g etype).combo = g.combo ∧
    (trackMissionKill g etype).combo_timer = g.combo_timer ∧
    (trackMissionKill g etype).score = g.score ∧
    (trackMissionKill g etype).explosions = g.explosions ∧
    (trackMissionKill g etype).player = g.player := by
  unfold trackMissionKill completeMission
  dsimp only
  repeat' split
  all_goals exact ⟨rfl, rfl, rfl, rfl, rfl⟩

theorem processProjEnemy_kill (g : SkyStrike) (proj : Projectile) (enemy : Enemy)
    (halive : proj.alive = true) (howner : proj.owner = "player")
    (healive : enemy.alive = true)
    (hdist : proj.position.distance_to enemy.position < enemy.size)
    (hkill : enemy.health - proj.damage ≤ 0) :
    processProjEnemy g proj enemy =
      (let g₂ : SkyStrike := { g with
          shots_hit := g.shots_hit + 1,
          explosions := g.explosions ++ [Explosion.init enemy.position] }
       let g₃ := trackMissionKill g₂ enemy.type
       ({ g₃ with
            score := g₃.score + killPoints enemy.type g₃.combo proj.is_missile,
            combo := g₃.combo + 1,
            combo_timer := 3.0 },
        { proj with alive := false },
        { enemy with health := enemy.health - proj.damage, alive := false })) := by
  have hres : enemy.take_damage proj.damage
      = ({ enemy with health := enemy.health - proj.damage, alive := false }, true) := by
    simp [Enemy.take_damage, hkill]
  unfold processProjEnemy
  rw [if_pos ⟨halive, howner, healive, hdist⟩, hres]
  rfl

/-! ## Claim C4 — kill: one explosion, combo/missile score formula -/

/-- C4: a player projectile hit that brings the enemy's health to ≤ 0 kills
it, appends exactly one explosion at the enemy's position, and adds
⌊base × (1 + combo × 0.5) × missile_multiplier⌋ to the score, with base
100/200/300 for scout/jet/bomber, multiplier 2 for missiles and 1 for
bullets, and combo the pre-kill combo count. -/
theorem kill_score_explosion_spec (g : SkyStrike) (proj : Projectile)
    (enemy : Enemy)
    (halive : proj.alive = true) (howner : proj.owner = "player")
    (healive : enemy.alive = true)
    (hdist : proj.position.distance_to enemy.position < enemy.size)
    (hkill : enemy.health - proj.damage ≤ 0)
    (htype : enemy.type = "scout" ∨ enemy.type = "jet" ∨ enemy.type = "bomber") :
    (processProjEnemy g proj enemy).1.explosions
      = g.explosions ++ [Explosion.init enemy.position] ∧
    (processProjEnemy g proj enemy).1.score
      = g.score + Int.floor ((if enemy.type = "scout" then (100:ℚ)
          else if enemy.type = "jet" then 200 else 300)
          * (1 + (g.combo : ℚ) * 0.5)
          * (if proj.is_missile = true then (2:ℚ) else 1)) ∧
    (processProjEnemy g proj enemy).2.2.alive = false := by
  have h := processProjEnemy_kill g proj enemy halive howner healive hdist hkill
  obtain ⟨hc, hct, hs, he, hp⟩ := trackMissionKill_preserves
    { g with
      shots_hit := g.shots_hit + 1,
      explosions := g.explosions ++ [Explosion.init enemy.position] } enemy.type
  refine ⟨?_, ?_, ?_⟩
  · rw [h]
    exact he
  · rw [h]
    show (trackMissionKill _ enemy.type).score
        + killPoints enemy.type (trackMissionKill _ enemy.type).combo proj.is_missile
      = _
    rw [hs, hc]
    show g.score + killPoints enemy.type g.combo proj.is_missile = _
    rcases htype with ht | ht | ht <;>
      simp [ht, killPoints, baseScore]
  · rw [h]

/-- A concrete game state in free play (no active mission). -/
def sampleGame : SkyStrike :=
  { state := GameState.PLAYING, player := samplePlayer, enemies := [],
    explosions := [], score := 0, combo := 0, combo_timer := 0,
    shots_hit := 0, god_mode := false, missions := MISSIONS,
    current_mission := none, mission_kills := fun _ => 0,
    defense_base := none, breached_enemies := [] }

/-- A jet-statted enemy at the origin with 5 health left. -/
def jetEnemy : Enemy :=
  { eid := 1, type := "jet", position := ⟨0, 0, 0⟩, health := 5,
    max_health := 60, speed := 45, size := 10, damage := 10,
    fire_cooldown := 0, state_timer := 0, state := EnemyState.PATROL,
    alive := true }

/-- A player machine-gun bullet at the origin. -/
def bullet0 : Projectile :=
  { position := ⟨0, 0, 0⟩, direction := ⟨1, 0, 0⟩, speed := 300, damage := 5,
    is_missile := false, owner := "player", alive := true, lifetime := 0,
    max_lifetime := 5 }

/-- Witness for C4: the first jet kill with a bullet at combo 0 awards
exactly 200 points and spawns one explosion. -/
theorem kill_score_explosion_spec_witness :
    (processProjEnemy sampleGame bullet0 jetEnemy).1.score = 200 ∧
    (processProjEnemy sampleGame bullet0 jetEnemy).1.explosions
      = [Explosion.init jetEnemy.position] ∧
    (processProjEnemy sampleGame bullet0 jetEnemy).2.2.alive = false := by
  have hdist : bullet0.position.distance_to jetEnemy.position < jetEnemy.size := by
    norm_num [bullet0, jetEnemy, Vector3.distance_to, Vector3.sub_def, Vector3.length]
  obtain ⟨he, hs, hd⟩ := kill_score_explosion_spec sampleGame bullet0 jetEnemy
    rfl rfl rfl hdist (by norm_num [jetEnemy, bullet0]) (Or.inr (Or.inl rfl))
  refine ⟨?_, ?_, hd⟩
  · rw [hs]
    norm_num [sampleGame, jetEnemy, bullet0]
    rw [if_neg (show ¬("jet" = "scout") by decide)]
    norm_num
  · rw [he]
    simp [sampleGame]

/-! ## Claim C6 — elimination mission completion and unlock -/

theorem completeMission_fields (gg : SkyStrike) (i : ℕ) (m : Mission)
    (hgm : gg.missions[i]? = some m) (hid : m.id = i) :
    (completeMission gg i).state = GameState.MISSION_COMPLETE ∧
    (completeMission gg i).missions[i]? = some { m with completed := true } ∧
    ∀ mnext, gg.missions[i + 1]? = some mnext →
      (completeMission gg i).missions[i + 1]?
        = some { mnext with unlocked := true } := by
  subst hid
  have hilen : m.id < gg.missions.length := (List.getElem?_eq_some_iff.mp hgm).1
  refine ⟨rfl, ?_, ?_⟩
  · unfold completeMission
    dsimp only
    rw [hgm]
    dsimp only
    split
    · split
      · rw [List.getElem?_set_ne (by omega), List.getElem?_set_self hilen]
      · rw [List.getElem?_set_self hilen]
    · rw [List.getElem?_set_self hilen]
  · intro mnext hnext
    have hnlen : m.id + 1 < gg.missions.length :=
      (List.getElem?_eq_some_iff.mp hnext).1
    unfold completeMission
    dsimp only
    rw [hgm]
    dsimp only
    have hlt : m.id < (gg.missions.set m.id { m with completed := true }).length - 1 := by
      rw [List.length_set]
      omega
    rw [if_pos hlt]
    have hstep : (gg.missions.set m.id { m with completed := true })[m.id + 1]?
        = some mnext := by
      rw [List.getElem?_set_ne (by omega), hnext]
    rw [hstep]
    dsimp only
    rw [List.getElem?_set_self (by rw [List.length_set]; omega)]

theorem trackKill_elimination (gg : SkyStrike) (i : ℕ) (m : Mission) (k : ℕ)
    (hcm : gg.current_mission = some i)
    (hgm : gg.missions[i]? = some m)
    (hid : m.id = i)
    (htype : m.type = MissionType.ELIMINATION)
    (htt : m.objectives.target_type = some "scout")
    (htc : m.objectives.target_count = 3)
    (hkval : gg.mission_kills "scout" = k) :
    (3 ≤ k + 1 →
      (trackMissionKill gg "scout").state = GameState.MISSION_COMPLETE ∧
      (trackMissionKill gg "scout").missions[i]? = some { m with completed := true } ∧
      ∀ mnext, gg.missions[i + 1]? = some mnext →
        (trackMissionKill gg "scout").missions[i + 1]?
          = some { mnext with unlocked := true }) ∧
    (k + 1 < 3 →
      (trackMissionKill gg "scout").state = gg.state ∧
      (trackMissionKill gg "scout").missions = gg.missions) := by
  have hred : trackMissionKill gg "scout" =
      (if (3:ℕ) ≤ k + 1 then
        completeMission { gg with mission_kills := fun t =>
          if t = "scout" then gg.mission_kills t + 1 else gg.mission_kills t } i
      else { gg with mission_kills := fun t =>
          if t = "scout" then gg.mission_kills t + 1 else gg.mission_kills t }) := by
    unfold trackMissionKill
    rw [hcm]
    dsimp only
    rw [hgm]
    dsimp only
    rw [htype, if_pos rfl, htt]
    dsimp only
    rw [htc, if_pos (rfl : ("scout":String) = "scout"), hkval]
  constructor
  · intro hk
    rw [hred, if_pos hk]
    obtain ⟨h1, h2, h3⟩ := completeMission_fields
      { gg with mission_kills := fun t =>
        if t = "scout" then gg.mission_kills t + 1 else gg.mission_kills t }
      i m hgm hid
    exact ⟨h1, h2, fun mnext hn => h3 mnext hn⟩
  · intro hk
    rw [hred, if_neg (by omega)]
    exact ⟨rfl, rfl⟩

/-- C6: in an ELIMINATION mission with target_type "scout" and target_count
3, a confirmed scout kill that brings the kill counter from 2 to 3 sets the
state to MISSION_COMPLETE, marks the mission completed and unlocks the next
mission; a kill that leaves the counter below 3 leaves the state and the
mission catalog untouched. -/
theorem elimination_mission_completion (g : SkyStrike) (proj : Projectile)
    (enemy : Enemy) (i : ℕ) (m : Mission)
    (halive : proj.alive = true) (howner : proj.owner = "player")
    (healive : enemy.alive = true)
    (hdist : proj.position.distance_to enemy.position < enemy.size)
    (hkill : enemy.health - proj.damage ≤ 0)
    (het : enemy.type = "scout")
    (hcm : g.current_mission = some i)
    (hgm : g.missions[i]? = some m)
    (hid : m.id = i)
    (htype : m.type = MissionType.ELIMINATION)
    (htt : m.objectives.target_type = some "scout")
    (htc : m.objectives.target_count = 3) :
    (2 ≤ g.mission_kills "scout" →
      (processProjEnemy g proj enemy).1.state = GameState.MISSION_COMPLETE ∧
      (processProjEnemy g proj enemy).1.missions[i]?
        = some { m with completed := true } ∧
      ∀ mnext, g.missions[i + 1]? = some mnext →
        (processProjEnemy g proj enemy).1.missions[i + 1]?
          = some { mnext with unlocked := true }) ∧
    (g.mission_kills "scout" + 1 < 3 →
      (processProjEnemy g proj enemy).1.state = g.state ∧
      (processProjEnemy g proj enemy).1.missions = g.missions) := by
  have h := processProjEnemy_kill g proj enemy halive howner healive hdist hkill
  have hstate : (processProjEnemy g proj enemy).1.state
      = (trackMissionKill { g with
          shots_hit := g.shots_hit + 1,
          explosions := g.explosions ++ [Explosion.init enemy.position] }
          enemy.type).state := by
    rw [h]
  have hmiss : (processProjEnemy g proj enemy).1.missions
      = (trackMissionKill { g with
          shots_hit := g.shots_hit + 1,
          explosions := g.explosions ++ [Explosion.init enemy.position] }
          enemy.type).missions := by
    rw [h]
  rw [het] at hstate hmiss
  obtain ⟨hA, hB⟩ := trackKill_elimination
    { g with
      shots_hit := g.shots_hit + 1,
      explosions := g.explosions ++ [Explosion.init enemy.position] }
    i m (g.mission_kills "scout") hcm hgm hid htype htt htc rfl
  constructor
  · intro hk
    obtain ⟨h1, h2, h3⟩ := hA (by omega)
    rw [hstate, hmiss]
    exact ⟨h1, h2, fun mnext hn => h3 mnext hn⟩
  · intro hk
    obtain ⟨h1, h2⟩ := hB hk
    rw [hstate, hmiss]
    exact ⟨h1, h2⟩

/-- A scout enemy with 5 health left. -/
def scoutEnemy : Enemy := { sampleEnemy with eid := 2, health := 5 }

/-- A game state playing mission 0 with two scout kills already credited. -/
def missionGame : SkyStrike :=
  { sampleGame with
    current_mission := some 0,
    mission_kills := fun t => if t = "scout" then 2 else 0 }

/-- The same game with no kills credited yet. -/
def missionGame0 : SkyStrike :=
  { missionGame with mission_kills := fun _ => 0 }

/-- Witness for C6: the third scout kill on mission 0 completes the mission
and unlocks mission 1; the first scout kill leaves the state PLAYING. -/
theorem elimination_mission_completion_witness :
    (processProjEnemy missionGame bullet0 scoutEnemy).1.state
      = GameState.MISSION_COMPLETE ∧
    (processProjEnemy missionGame bullet0 scoutEnemy).1.missions[1]?
      = some { Mission.make 1 "Survival Test" MissionType.SURVIVAL
          "Survive for 60 seconds" { duration := 60 } with unlocked := true } ∧
    (processProjEnemy missionGame0 bullet0 scoutEnemy).1.state
      = GameState.PLAYING := by
  have hdist : bullet0.position.distance_to scoutEnemy.position < scoutEnemy.size := by
    norm_num [bullet0, scoutEnemy, sampleEnemy, Vector3.distance_to,
      Vector3.sub_def, Vector3.length]
  have hkill : scoutEnemy.health - bullet0.damage ≤ 0 := by
    norm_num [scoutEnemy, sampleEnemy, bullet0]
  obtain ⟨hA, _⟩ := elimination_mission_completion missionGame bullet0 scoutEnemy 0
    (Mission.make 0 "First Contact" MissionType.ELIMINATION
      "Destroy 3 Scout Drones" { target_type := some "scout", target_count := 3 })
    rfl rfl rfl hdist hkill rfl rfl rfl rfl rfl rfl rfl
  obtain ⟨h1, _, h3⟩ := hA (by simp [missionGame])
  obtain ⟨_, hB⟩ := elimination_mission_completion missionGame0 bullet0 scoutEnemy 0
    (Mission.make 0 "First Contact" MissionType.ELIMINATION
      "Destroy 3 Scout Drones" { target_type := some "scout", target_count := 3 })
    rfl rfl rfl hdist hkill rfl rfl rfl rfl rfl rfl rfl
  obtain ⟨hb1, _⟩ := hB (by simp [missionGame0])
  exact ⟨h1, h3 _ rfl, hb1⟩

/-! ## Claim C5 — defense breaches: one per distinct enemy, fail at max -/

theorem breachLoop_no_base (g : SkyStrike) (maxb : ℕ) (l : List Enemy)
    (hdb : g.defense_base = none) : breachLoop g maxb l = g := by
  cases l with
  | nil => rfl
  | cons e rest => simp [breachLoop, hdb]

/-- C5: an enemy whose id is already in the breached set is skipped (one
breach per distinct enemy, never repeated); a new breach by an alive enemy
inside the radius increments the counter by exactly one, and the moment the
counter reaches `max_breaches` the state becomes MISSION_FAILED on the spot
(the rest of the list is not visited); below the threshold the walk
continues with the enemy recorded. -/
theorem defense_breach_spec :
    (∀ (g : SkyStrike) (maxb : ℕ) (e : Enemy) (rest : List Enemy),
      e.eid ∈ g.breached_enemies →
      breachLoop g maxb (e :: rest) = breachLoop g maxb rest) ∧
    (∀ (g : SkyStrike) (maxb : ℕ) (e : Enemy) (rest : List Enemy)
        (base : DefenseBase),
      g.defense_base = some base →
      e.alive = true → e.eid ∉ g.breached_enemies →
      base.check_breach e.position = true →
      maxb ≤ base.breaches + 1 →
      (breachLoop g maxb (e :: rest)).state = GameState.MISSION_FAILED ∧
      (breachLoop g maxb (e :: rest)).defense_base
        = some { base with breaches := base.breaches + 1 }) ∧
    (∀ (g : SkyStrike) (maxb : ℕ) (e : Enemy) (rest : List Enemy)
        (base : DefenseBase),
      g.defense_base = some base →
      e.alive = true → e.eid ∉ g.breached_enemies →
      base.check_breach e.position = true →
      ¬ maxb ≤ base.breaches + 1 →
      breachLoop g maxb (e :: rest) =
        breachLoop { g with
          breached_enemies := e.eid :: g.breached_enemies,
          defense_base := some { base with breaches := base.breaches + 1 } }
          maxb rest) := by
  refine ⟨?_, ?_, ?_⟩
  · intro g maxb e rest hmem
    cases hdb : g.defense_base with
    | none =>
      have h1 : breachLoop g maxb (e :: rest) = g := by
        simp [breachLoop, hdb]
      rw [h1, breachLoop_no_base g maxb rest hdb]
    | some base =>
      have hcond : ¬ (e.alive = true ∧ e.eid ∉ g.breached_enemies ∧
          base.check_breach e.position = true) := by
        intro hc
        exact hc.2.1 hmem
      simp only [breachLoop]
      rw [hdb]
      dsimp only
      rw [if_neg hcond]
  · intro g maxb e rest base hdb halive hnot hcb hmax
    have hred : breachLoop g maxb (e :: rest) =
        { { g with
            breached_enemies := e.eid :: g.breached_enemies,
            defense_base := some { base with breaches := base.breaches + 1 } }
          with state := GameState.MISSION_FAILED } := by
      simp only [breachLoop]
      rw [hdb]
      dsimp only
      rw [if_pos ⟨halive, hnot, hcb⟩]
      rw [if_pos hmax]
    rw [hred]
    exact ⟨rfl, rfl⟩
  · intro g maxb e rest base hdb halive hnot hcb hmax
    simp only [breachLoop]
    rw [hdb]
    dsimp only
    rw [if_pos ⟨halive, hnot, hcb⟩]
    rw [if_neg hmax]

/-- A DEFENSE game on mission 4 with two distinct breaches already counted. -/
def defenseGame : SkyStrike :=
  { sampleGame with
    current_mission := some 4,
    defense_base := some { DefenseBase.init with breaches := 2 },
    breached_enemies := [7, 8] }

/-- The same game with no breaches counted yet. -/
def defenseGame0 : SkyStrike :=
  { defenseGame with
    defense_base := some DefenseBase.init,
    breached_enemies := [] }

/-- An alive enemy sitting on the defense base (inside the breach radius). -/
def breachingEnemy : Enemy :=
  { sampleEnemy with eid := 9, position := ⟨0, 50, 0⟩ }

/-- An enemy whose id 7 was already counted as a breach. -/
def dupEnemy : Enemy :=
  { sampleEnemy with eid := 7, position := ⟨0, 50, 0⟩ }

/-- Witness for C5: with `max_breaches = 3` and two breaches on the books,
the third distinct breaching enemy fails the mission and the counter shows
3; a previously-counted enemy is skipped; a first breach below the
threshold just records the enemy and continues. -/
theorem defense_breach_spec_witness :
    ((breachLoop defenseGame 3 [breachingEnemy]).state
        = GameState.MISSION_FAILED ∧
      (breachLoop defenseGame 3 [breachingEnemy]).defense_base
        = some { { DefenseBase.init with breaches := 2 } with
            breaches := ({ DefenseBase.init with breaches := 2 } : DefenseBase).breaches + 1 }) ∧
    breachLoop defenseGame 3 [dupEnemy] = breachLoop defenseGame 3 [] ∧
    breachLoop defenseGame0 3 [breachingEnemy] =
      breachLoop { defenseGame0 with
        breached_enemies := breachingEnemy.eid :: defenseGame0.breached_enemies,
        defense_base := some { DefenseBase.init with
          breaches := (DefenseBase.init : DefenseBase).breaches + 1 } } 3 [] := by
  have hcb : ({ DefenseBase.init with breaches := 2 } : DefenseBase).check_breach
      breachingEnemy.position = true := by
    rw [DefenseBase.check_breach, decide_eq_true_eq]
    norm_num [DefenseBase.init, breachingEnemy, sampleEnemy, Vector3.distance_to,
      Vector3.sub_def, Vector3.length]
  have hcb0 : (DefenseBase.init : DefenseBase).check_breach
      breachingEnemy.position = true := by
    rw [DefenseBase.check_breach, decide_eq_true_eq]
    norm_num [DefenseBase.init, breachingEnemy, sampleEnemy, Vector3.distance_to,
      Vector3.sub_def, Vector3.length]
  refine ⟨defense_breach_spec.2.1 defenseGame 3 breachingEnemy []
      { DefenseBase.init with breaches := 2 } rfl rfl (by decide) hcb (by decide),
    defense_breach_spec.1 defenseGame 3 dupEnemy [] (by decide),
    defense_breach_spec.2.2 defenseGame0 3 breachingEnemy [] DefenseBase.init
      rfl rfl (by decide) hcb0 (by decide)⟩

/-! ## Claim C7 — enemy-vs-player body collision -/

/-- A game whose player has only 10 health left. -/
def weakPlayerGame : SkyStrike :=
  { sampleGame with player := { samplePlayer with health := 10 } }

theorem weakPlayer_collision_cond :
    sampleEnemy.alive = true ∧ weakPlayerGame.player.alive = true ∧
    sampleEnemy.position.distance_to weakPlayerGame.player.position
      < sampleEnemy.size + 10 := by
  refine ⟨rfl, rfl, ?_⟩
  norm_num [sampleEnemy, weakPlayerGame, sampleGame, samplePlayer,
    Vector3.distance_to, Vector3.sub_def, Vector3.length]

/-- Counterexample for C7: with the spec-modelled clamped player damage, a
body collision at 10 player health leaves the player at health 0 — the
literal deduction is 10, not exactly 30. -/
theorem enemy_player_collision_deduction_counterexample :
    (enemyPlayerCollision weakPlayerGame sampleEnemy).1.player.health = 0 ∧
    weakPlayerGame.player.health - 30 = -20 ∧
    (enemyPlayerCollision weakPlayerGame sampleEnemy).1.player.health
      ≠ weakPlayerGame.player.health - 30 := by
  have h1 : (enemyPlayerCollision weakPlayerGame sampleEnemy).1.player.health = 0 := by
    rw [enemyPlayerCollision, if_pos weakPlayer_collision_cond]
    show (weakPlayerGame.player.take_damage 30).health = 0
    rw [PlayerAircraft.take_damage]
    rw [if_pos (by norm_num [weakPlayerGame, sampleGame, samplePlayer] :
      weakPlayerGame.player.health - 30 ≤ 0)]
  have h2 : weakPlayerGame.player.health - 30 = -20 := by
    norm_num [weakPlayerGame, sampleGame, samplePlayer]
  refine ⟨h1, h2, ?_⟩
  rw [h1, h2]
  norm_num

/-- C7 (amended): under god mode the enemy-vs-player pass leaves the state
untouched; without god mode, contact within (enemy size + 10) kills the
enemy outright (it is dealt its own max health, fatal whenever
health ≤ max_health), applies a fixed 30 damage to the player (health
reduced by 30 and clamped at zero, so exactly 30 whenever health ≥ 30),
and appends an explosion at the enemy's position — all independent of the
enemy's type and size. -/
theorem enemy_player_collision_spec :
    (∀ g : SkyStrike, g.god_mode = true → checkEnemyPlayerCollisions g = g) ∧
    (∀ (g : SkyStrike) (enemy : Enemy),
      enemy.alive = true → g.player.alive = true →
      enemy.position.distance_to g.player.position < enemy.size + 10 →
      enemy.health ≤ enemy.max_health →
      (enemyPlayerCollision g enemy).2.alive = false ∧
      (enemyPlayerCollision g enemy).2.health
        = enemy.health - enemy.max_health ∧
      (enemyPlayerCollision g enemy).1.player.health
        = (if g.player.health - 30 ≤ 0 then 0 else g.player.health - 30) ∧
      (enemyPlayerCollision g enemy).1.explosions
        = g.explosions ++ [Explosion.init enemy.position]) := by
  constructor
  · intro g hgod
    rw [checkEnemyPlayerCollisions, if_pos hgod]
  · intro g enemy halive hpalive hdist hmono
    have hcond : enemy.alive = true ∧ g.player.alive = true ∧
        enemy.position.distance_to g.player.position < enemy.size + 10 :=
      ⟨halive, hpalive, hdist⟩
    have hkill : enemy.health - enemy.max_health ≤ 0 := by linarith
    rw [enemyPlayerCollision, if_pos hcond]
    have htd : enemy.take_damage enemy.max_health
        = ({ enemy with
            health := enemy.health - enemy.max_health,
            alive := false }, true) := by
      simp [Enemy.take_damage, hkill]
    rw [htd]
    refine ⟨rfl, rfl, ?_, rfl⟩
    show (g.player.take_damage 30).health = _
    rw [PlayerAircraft.take_damage]
    by_cases hp : g.player.health - 30 ≤ 0
    · rw [if_pos hp, if_pos hp]
    · rw [if_neg hp, if_neg hp]

/-- A game with god mode enabled. -/
def godGame : SkyStrike := { sampleGame with god_mode := true }

/-- Witness for C7 (amended): god mode skips the pass, and a collision with
a full-health player deducts exactly 30 (100 → 70) while destroying the
scout. -/
theorem enemy_player_collision_spec_witness :
    checkEnemyPlayerCollisions godGame = godGame ∧
    (enemyPlayerCollision sampleGame sampleEnemy).2.alive = false ∧
    (enemyPlayerCollision sampleGame sampleEnemy).1.player.health
      = (if sampleGame.player.health - 30 ≤ 0 then 0
         else sampleGame.player.health - 30) ∧
    (enemyPlayerCollision sampleGame sampleEnemy).1.explosions
      = sampleGame.explosions ++ [Explosion.init sampleEnemy.position] := by
  have hdist : sampleEnemy.position.distance_to sampleGame.player.position
      < sampleEnemy.size + 10 := by
    norm_num [sampleEnemy, sampleGame, samplePlayer, Vector3.distance_to,
      Vector3.sub_def, Vector3.length]
  obtain ⟨ha, _, hc, hd⟩ := enemy_player_collision_spec.2 sampleGame sampleEnemy
    rfl rfl hdist (by norm_num [sampleEnemy])
  exact ⟨enemy_player_collision_spec.1 godGame rfl, ha, hc, hd⟩

/-! ## Claim C8 — combo decay and reset -/

theorem comboDecayRun_zero (t : ℝ) (l : List ℝ) :
    comboDecayRun 0 t l = (0, t) := by
  induction l with
  | nil => rfl
  | cons d rest ih =>
    have hstep : comboDecayStep 0 t d = (0, t) := by
      simp [comboDecayStep]
    simp only [comboDecayRun]
    rw [hstep]
    exact ih

theorem comboDecayRun_pos (c : ℕ) (hc : 0 < c) (l : List ℝ)
    (hl : ∀ d ∈ l, (0:ℝ) ≤ d) :
    ∀ t : ℝ, 0 < t →
      (comboDecayRun c t l).1 = if t ≤ l.sum then 0 else c := by
  induction l with
  | nil =>
    intro t ht
    rw [comboDecayRun, List.sum_nil, if_neg (by linarith)]
  | cons d rest ih =>
    intro t ht
    have hd : (0:ℝ) ≤ d := hl d (List.mem_cons_self _ _)
    have hrest : ∀ x ∈ rest, (0:ℝ) ≤ x := fun x hx => hl x (List.mem_cons_of_mem _ hx)
    have hsum : (0:ℝ) ≤ rest.sum := List.sum_nonneg hrest
    by_cases hstop : t - d ≤ 0
    · have hstep : comboDecayStep c t d = (0, t - d) := by
        simp [comboDecayStep, hc, hstop]
      simp only [comboDecayRun]
      rw [hstep]
      have hz := comboDecayRun_zero (t - d) rest
      rw [hz, List.sum_cons, if_pos (by linarith)]
    · have hstep : comboDecayStep c t d = (c, t - d) := by
        simp [comboDecayStep, hc, hstop]
      simp only [comboDecayRun]
      rw [hstep]
      have := ih hrest (t - d) (by linarith)
      rw [this, List.sum_cons]
      rcases le_or_lt (t - d) rest.sum with h | h
      · rw [if_pos h, if_pos (by linarith)]
      · rw [if_neg (by linarith), if_neg (by linarith)]

/-- C8: while the combo is positive the timer counts down by dt every frame;
starting from a fresh 3-second timer with no further kill, the combo count
is zeroed exactly on the first frame whose accumulated dt reaches 3 seconds
(and not before); and every kill sets the timer back to 3 seconds while
incrementing the combo. -/
theorem combo_decay_spec :
    (∀ (c : ℕ) (t dt : ℝ), 0 < c → (comboDecayStep c t dt).2 = t - dt) ∧
    (∀ (dts : List ℝ), (∀ d ∈ dts, (0:ℝ) ≤ d) → ∀ c : ℕ, 0 < c → ∀ k : ℕ,
      (comboDecayRun c 3 (dts.take k)).1
        = if (3:ℝ) ≤ (dts.take k).sum then 0 else c) ∧
    (∀ (g : SkyStrike) (proj : Projectile) (enemy : Enemy),
      proj.alive = true → proj.owner = "player" → enemy.alive = true →
      proj.position.distance_to enemy.position < enemy.size →
      enemy.health - proj.damage ≤ 0 →
      (processProjEnemy g proj enemy).1.combo_timer = 3 ∧
      (processProjEnemy g proj enemy).1.combo = g.combo + 1) := by
  refine ⟨?_, ?_, ?_⟩
  · intro c t dt hc
    simp only [comboDecayStep, if_pos hc]
    split <;> rfl
  · intro dts hdts c hc k
    exact comboDecayRun_pos c hc (dts.take k)
      (fun d hd => hdts d (List.take_subset _ _ hd)) 3 (by norm_num)
  · intro g proj enemy halive howner healive hdist hkill
    have h := processProjEnemy_kill g proj enemy halive howner healive hdist hkill
    obtain ⟨hcombo, hct, hs, he, hp⟩ := trackMissionKill_preserves
      { g with
        shots_hit := g.shots_hit + 1,
        explosions := g.explosions ++ [Explosion.init enemy.position] } enemy.type
    constructor
    · rw [h]
      norm_num
    · rw [h]
      exact congrArg (· + 1) hcombo

/-- Witness for C8: a decay step at combo 2 subtracts dt; two 2-second
frames with no kill zero a combo of 1 (accumulated 4 ≥ 3); the jet kill of
the C4 scenario resets the timer to 3 and bumps the combo. -/
theorem combo_decay_spec_witness :
    (comboDecayStep 2 3 0.5).2 = 3 - 0.5 ∧
    (comboDecayRun 1 3 (List.take 2 ([2, 2] : List ℝ))).1 = 0 ∧
    (processProjEnemy sampleGame bullet0 jetEnemy).1.combo_timer = 3 ∧
    (processProjEnemy sampleGame bullet0 jetEnemy).1.combo = sampleGame.combo + 1 := by
  have hdist : bullet0.position.distance_to jetEnemy.position < jetEnemy.size := by
    norm_num [bullet0, jetEnemy, Vector3.distance_to, Vector3.sub_def, Vector3.length]
  obtain ⟨h3a, h3b⟩ := combo_decay_spec.2.2 sampleGame bullet0 jetEnemy
    rfl rfl rfl hdist (by norm_num [jetEnemy, bullet0])
  refine ⟨combo_decay_spec.1 2 3 0.5 (by norm_num), ?_, h3a, h3b⟩
  have h2 := combo_decay_spec.2.1 [2, 2] (by norm_num) 1 (by norm_num) 2
  rw [h2, if_pos]
  norm_num

end Sky

end
